import Mathlib

/-!
Verification of the split-bill-calculator authentication core.

The definitions below are a shallow embedding of the repository's
authentication layer:

* `server.js` (OAuth variant): `loadUsers`/`saveUsers`, `addOrUpdateGoogleUser`,
  the `/api/auth/signup`, `/api/auth/signin`, `/api/auth/session` and
  `/api/users` routes;
* the simple server variant (plaintext-password storage): its
  `/api/auth/signup` route;
* `auth.js` (client): the password clauses of `validateAllSignUpFields`
  and `validatePassword`.

JavaScript objects are modelled as Lean structures; a field that may be
absent from the underlying JS object is an `Option`, with `none` meaning
the key is absent.  Timestamps and generated ids (`Date.now().toString()`,
`new Date().toISOString()`) are passed in as explicit `String` parameters.
The success of a `fs.writeFile` inside `saveUsers` is modelled by an
explicit `saveOk : Bool` parameter; the second component of each mutating
operation's result is the persisted store after the call (the file is
unchanged when the save fails, matching `saveUsers` returning `false`).
-/

namespace SplitBill

/-- A record of `users.json` as created/updated by the OAuth-variant server
(`server.js`).  `email`, `password`, `googleId`, `picture` and `lastLogin`
may be absent from a stored object; `none` models an absent key. -/
structure User where
  id : String
  name : String
  email : Option String
  password : Option String
  googleId : Option String
  picture : Option String
  createdAt : String
  lastLogin : Option String
deriving DecidableEq, Repr

/-- JS `String.prototype.toLowerCase()`, modelled character-wise (the
sources only compare ASCII email/username strings). -/
def jsToLower (s : String) : String :=
  ⟨s.data.map Char.toLower⟩

/-- Modelled from the spec: the Password Hasher (`bcrypt.hash` with 10 salt
rounds) is a library dependency, not part of the repository sources.  The
spec's contract is a one-way transform producing an opaque digest distinct
from the plaintext, with a matching verifier.  The model tags the plaintext
with the bcrypt version/cost prefix, which yields a digest that is never
equal to the plaintext and is verified only by the original plaintext. -/
def bcryptHash (plaintext : String) : String :=
  "$2b$10$" ++ plaintext

/-- Modelled from the spec: `bcrypt.compare(plaintext, digest)` — true iff
the digest was produced from this plaintext. -/
def bcryptCompare (plaintext digest : String) : Bool :=
  digest == bcryptHash plaintext

/-- `const { password, ...safeUser } = user` — the object sent in responses,
with the `password` key removed. -/
def sanitizeUser (u : User) : User :=
  { u with password := none }

/-- `GET /api/users`: map every stored record through the password-stripping
destructuring. -/
def listUsers (users : List User) : List User :=
  users.map sanitizeUser

/-- Result of `GET /api/auth/session`: passport deserialisation looks the
session's user id up in the store and the route returns that record as-is. -/
inductive SessionResult where
  | authenticated (user : User)
  | notAuthenticated
deriving DecidableEq, Repr

/-- `GET /api/auth/session` together with `passport.deserializeUser`:
`users.find(u => u.id === id)`; an absent or dangling session id yields the
unauthenticated response, otherwise the found record is returned raw. -/
def sessionCheck (users : List User) (sessionUserId : Option String) : SessionResult :=
  match sessionUserId with
  | none => .notAuthenticated
  | some i =>
    match users.find? (fun u => u.id == i) with
    | some u => .authenticated u
    | none => .notAuthenticated

/-- Response of `POST /api/auth/signup` (OAuth-variant server). -/
inductive SignupResult where
  | badRequest (msg : String)
  | created (msg : String) (user : User)
  | serverError (msg : String)
deriving DecidableEq, Repr

/-- Request body of `POST /api/auth/signup`; a missing field is the empty
string (both are falsy in the JS guard `!name || !email || !password`). -/
structure SignupReq where
  name : String
  email : String
  password : String
deriving DecidableEq, Repr

/-- `users.some(u => u.email.toLowerCase() === email.toLowerCase())`:
walks the list in order; a record without an `email` key makes the JS
expression throw a TypeError (modelled as `.error ()`), which the route's
catch turns into a 500. -/
def checkDupEmail : List User → String → Except Unit Bool
  | [], _ => .ok false
  | u :: rest, e =>
    match u.email with
    | none => .error ()
    | some eu => if jsToLower eu == jsToLower e then .ok true else checkDupEmail rest e

/-- The record pushed by signup: bcrypt-hashed password, `lastLogin: null`. -/
def mkSignupUser (req : SignupReq) (nowId nowISO : String) : User :=
  { id := nowId, name := req.name, email := some req.email,
    password := some (bcryptHash req.password),
    googleId := none, picture := none,
    createdAt := nowISO, lastLogin := none }

/-- `POST /api/auth/signup` of the OAuth-variant server: field-presence
check, minimum password length 6, duplicate-email check (case-insensitive),
then hash, push and save; a failed save reports a 500 and the persisted
store is unchanged.  Returns the response and the persisted store. -/
def signup (users : List User) (req : SignupReq) (nowId nowISO : String)
    (saveOk : Bool) : SignupResult × List User :=
  if req.name = "" ∨ req.email = "" ∨ req.password = "" then
    (.badRequest "All fields are required", users)
  else if req.password.length < 6 then
    (.badRequest "Password must be at least 6 characters", users)
  else
    match checkDupEmail users req.email with
    | .error _ => (.serverError "Failed to create user", users)
    | .ok true => (.badRequest "Email already registered", users)
    | .ok false =>
      let nu := mkSignupUser req nowId nowISO
      if saveOk then
        (.created "User created successfully" (sanitizeUser nu), users ++ [nu])
      else
        (.serverError "Failed to save user data", users)

/-- Response of `POST /api/auth/signin` (OAuth-variant server). -/
inductive SigninResult where
  | badRequest (msg : String)
  | unauthorized (msg : String)
  | ok (msg : String) (user : User)
deriving DecidableEq, Repr

/-- `users.find(u => u.email && u.email.toLowerCase() === email.toLowerCase())`:
a record without an `email` key fails the guard and is skipped. -/
def signinLookup (users : List User) (email : String) : Option User :=
  users.find? (fun u =>
    match u.email with
    | some eu => jsToLower eu == jsToLower email
    | none => false)

/-- `POST /api/auth/signin`: presence check, case-insensitive email lookup
(skipping records without an email), the Google-account branch for records
without a stored password, bcrypt comparison, then a lastLogin refresh and
the password-stripped record in the response. -/
def signin (users : List User) (email password nowISO : String) : SigninResult :=
  if email = "" ∨ password = "" then
    .badRequest "Email and password are required"
  else
    match signinLookup users email with
    | none => .unauthorized "Invalid credentials"
    | some user =>
      match user.password with
      | none => .unauthorized "This account was created with Google. Please use Google Sign-In."
      | some hash =>
        if bcryptCompare password hash then
          .ok "Login successful" (sanitizeUser { user with lastLogin := some nowISO })
        else
          .unauthorized "Invalid credentials"

/-- The profile assertion handed to `addOrUpdateGoogleUser` by the Google
strategy callback. -/
structure GoogleProfile where
  googleId : String
  name : String
  email : String
  picture : String
deriving DecidableEq, Repr

/-- `users[existingUserIndex] = { ...users[existingUserIndex], name, picture,
lastLogin, googleId }` — the in-place refresh of a matched record. -/
def applyGoogleUpdate (u : User) (p : GoogleProfile) (nowISO : String) : User :=
  { u with name := p.name, picture := some p.picture,
           lastLogin := some nowISO, googleId := some p.googleId }

/-- The record pushed for a first-time Google sign-in: fresh id, no
password key, `createdAt` and `lastLogin` both set to now. -/
def newGoogleUser (p : GoogleProfile) (nowId nowISO : String) : User :=
  { id := nowId, name := p.name, email := some p.email, password := none,
    googleId := some p.googleId, picture := some p.picture,
    createdAt := nowISO, lastLogin := some nowISO }

/-- `users.findIndex(user => user.email === googleProfile.email)` followed by
the in-place update: replaces the first record whose `email` key equals the
assertion's email exactly (strict `===`, case-sensitive), returning the new
list and the updated record; `none` when no record matches. -/
def updateFirstMatch (p : GoogleProfile) (nowISO : String) :
    List User → Option (List User × User)
  | [] => none
  | u :: rest =>
    if u.email == some p.email then
      some (applyGoogleUpdate u p nowISO :: rest, applyGoogleUpdate u p nowISO)
    else
      match updateFirstMatch p nowISO rest with
      | some (rest2, upd) => some (u :: rest2, upd)
      | none => none

/-- `addOrUpdateGoogleUser(googleProfile)`: load, find by exact email, update
in place or push a new record, then `await saveUsers(users)` whose boolean
result is ignored — the matched/new record is returned either way.  The
second component is the persisted store (unchanged when the save failed). -/
def addOrUpdateGoogleUser (users : List User) (p : GoogleProfile)
    (nowId nowISO : String) (saveOk : Bool) : User × List User :=
  match updateFirstMatch p nowISO users with
  | some (users2, upd) => (upd, if saveOk then users2 else users)
  | none =>
    let nu := newGoogleUser p nowId nowISO
    (nu, if saveOk then users ++ [nu] else users)

/-- The records of the store holding a given exact email (the lookup key of
`addOrUpdateGoogleUser`). -/
def filterEmail (users : List User) (e : String) : List User :=
  users.filter (fun u => u.email == some e)

/-- Number of stored records with the given exact email. -/
def countEmail (users : List User) (e : String) : Nat :=
  (filterEmail users e).length

/-- A record of the simple server variant's `users.json` (plaintext
passwords, username keyed). -/
structure SimpleUser where
  id : String
  username : String
  email : String
  password : Option String
  createdAt : String
  lastLogin : Option String
deriving DecidableEq, Repr

/-- Response of `POST /api/auth/signup` on the simple server variant. -/
inductive SimpleSignupResult where
  | badRequest (msg : String)
  | created (msg : String) (user : SimpleUser)
  | serverError (msg : String)
deriving DecidableEq, Repr

/-- `POST /api/auth/signup` of the simple server variant: username length
3–30, minimum password length 8, duplicate username and email checks, then
the record is pushed with the password stored as-is (the source's own
comment: "In production, hash this password"). -/
def signupSimple (users : List SimpleUser) (username email password : String)
    (nowId nowISO : String) : SimpleSignupResult × List SimpleUser :=
  if username = "" ∨ email = "" ∨ password = "" then
    (.badRequest "All fields are required", users)
  else if username.length < 3 ∨ username.length > 30 then
    (.badRequest "Username must be 3-30 characters", users)
  else if password.length < 8 then
    (.badRequest "Password must be at least 8 characters", users)
  else if users.any (fun u => jsToLower u.username == jsToLower username) then
    (.badRequest "Username already exists", users)
  else if users.any (fun u => jsToLower u.email == jsToLower email) then
    (.badRequest "Email already registered", users)
  else
    let nu : SimpleUser := { id := nowId, username := username, email := email,
                             password := some password, createdAt := nowISO,
                             lastLogin := none }
    (.created "User created successfully" { nu with password := none }, users ++ [nu])

/-- Password clause of the client's submit-time `validateAllSignUpFields`
(auth.js): rejects an empty password or one shorter than 6 characters. -/
def signUpSubmitPasswordOk (password : String) : Bool :=
  !(password == "") && !(password.length < 6)

/-- The client's per-field `validatePassword` (auth.js, bound to the input
event): rejects an empty password or one shorter than 8 characters. -/
def validatePassword (password : String) : Bool :=
  !(password == "") && !(password.length < 8)

end SplitBill

namespace SplitBill

theorem sanitizeUser_password (u : User) : (sanitizeUser u).password = none := rfl

theorem applyGoogleUpdate_email (u : User) (p : GoogleProfile) (t : String) :
    (applyGoogleUpdate u p t).email = u.email := rfl

theorem applyGoogleUpdate_id (u : User) (p : GoogleProfile) (t : String) :
    (applyGoogleUpdate u p t).id = u.id := rfl

theorem applyGoogleUpdate_lastLogin (u : User) (p : GoogleProfile) (t : String) :
    (applyGoogleUpdate u p t).lastLogin = some t := rfl

/-- C1 (counterexample): the Session-check route returns the stored record
unsanitised — for a store holding one locally-registered user, the response
user object still carries the password hash. -/
theorem sessionCheck_returns_password_hash :
    sessionCheck
      [⟨"1", "Ann", some "ann@x.com", some (bcryptHash "secretpw"), none, none, "t0", none⟩]
      (some "1") =
      .authenticated
        ⟨"1", "Ann", some "ann@x.com", some (bcryptHash "secretpw"), none, none, "t0", none⟩ ∧
    (⟨"1", "Ann", some "ann@x.com", some (bcryptHash "secretpw"), none, none, "t0", none⟩
      : User).password ≠ none := by
  decide

/-- C1 (amended): user objects returned by Register, Sign-in and List-users
carry no password field; Session-check (shown false by the counterexample)
is excluded. -/
theorem register_signin_listusers_sanitized (users : List User) :
    (∀ req nowId nowISO saveOk m u s,
      signup users req nowId nowISO saveOk = (.created m u, s) → u.password = none) ∧
    (∀ email password nowISO m u,
      signin users email password nowISO = .ok m u → u.password = none) ∧
    (∀ u ∈ listUsers users, u.password = none) := by
  refine ⟨?_, ?_, ?_⟩
  · intro req nowId nowISO saveOk m u s h
    unfold signup at h
    split at h
    · simp at h
    · split at h
      · simp at h
      · split at h
        · simp at h
        · simp at h
        · split at h
          · obtain ⟨h1, -⟩ := Prod.mk.injEq .. ▸ h
            obtain ⟨-, rfl⟩ := SignupResult.created.injEq .. ▸ h1
            exact sanitizeUser_password _
          · simp at h
  · intro email password nowISO m u h
    unfold signin at h
    split at h
    · simp at h
    · split at h
      · simp at h
      · split at h
        · simp at h
        · split at h
          · obtain ⟨-, rfl⟩ := SigninResult.ok.injEq .. ▸ h
            exact sanitizeUser_password _
          · simp at h
  · intro u hu
    simp only [listUsers, List.mem_map] at hu
    obtain ⟨v, -, rfl⟩ := hu
    exact sanitizeUser_password v

/-- C1 (witness): a concrete successful sign-in returns a user object with
no password field. -/
theorem register_signin_listusers_sanitized_witness :
    (sanitizeUser
      { (⟨"1", "Ann", some "ann@x.com", some (bcryptHash "pw123456"), none, none, "t0", none⟩
          : User) with lastLogin := some "t1" }).password = none := by
  apply (register_signin_listusers_sanitized
    [⟨"1", "Ann", some "ann@x.com", some (bcryptHash "pw123456"), none, none, "t0", none⟩]).2.1
    "ann@x.com" "pw123456" "t1" "Login successful"
  decide

/-- C2 (counterexample): a sign-in against a delegated-only record (no
password key) yields a Google-specific message, different from the generic
message produced for an unknown identifier. -/
theorem google_only_signin_message_differs :
    signin [⟨"1", "G", some "g@x.com", none, some "gid", some "u", "t0", none⟩]
      "g@x.com" "anypw" "t1" =
      .unauthorized "This account was created with Google. Please use Google Sign-In." ∧
    signin [] "g@x.com" "anypw" "t1" = .unauthorized "Invalid credentials" ∧
    ("This account was created with Google. Please use Google Sign-In." : String) ≠
      "Invalid credentials" := by
  decide

/-- C2 (amended): unknown identifier and wrong password produce the
identical generic "Invalid credentials" message, while a delegated-only
record (no stored password) produces the distinct Google-specific message. -/
theorem signin_failure_messages (users : List User) (email password nowISO : String)
    (he : email ≠ "") (hp : password ≠ "") :
    (signinLookup users email = none →
      signin users email password nowISO = .unauthorized "Invalid credentials") ∧
    (∀ u hash, signinLookup users email = some u → u.password = some hash →
      bcryptCompare password hash = false →
      signin users email password nowISO = .unauthorized "Invalid credentials") ∧
    (∀ u, signinLookup users email = some u → u.password = none →
      signin users email password nowISO =
        .unauthorized "This account was created with Google. Please use Google Sign-In.") := by
  refine ⟨?_, ?_, ?_⟩
  · intro h
    unfold signin
    rw [if_neg (by simp [he, hp]), h]
  · intro u hash hu hph hcmp
    unfold signin
    rw [if_neg (by simp [he, hp]), hu]
    simp only [hph, hcmp]
    rfl
  · intro u hu hph
    unfold signin
    rw [if_neg (by simp [he, hp]), hu]
    simp only [hph]

/-- C2 (witness): the unknown-identifier case on a concrete store produces
the generic message. -/
theorem signin_failure_messages_witness :
    signin [] "ann@x.com" "pw" "t1" = .unauthorized "Invalid credentials" :=
  (signin_failure_messages [] "ann@x.com" "pw" "t1" (by decide) (by decide)).1 (by decide)

end SplitBill

namespace SplitBill

theorem updateFirstMatch_length (p : GoogleProfile) (t : String) :
    ∀ (users l2 : List User) (w : User),
      updateFirstMatch p t users = some (l2, w) → l2.length = users.length := by
  intro users
  induction users with
  | nil => intro l2 w h; simp [updateFirstMatch] at h
  | cons u rest ih =>
    intro l2 w h
    unfold updateFirstMatch at h
    split at h
    · obtain ⟨h1, -⟩ := Prod.mk.injEq .. ▸ Option.some.injEq .. ▸ h
      subst h1
      simp
    · split at h
      · rename_i rest2 upd heq
        obtain ⟨h1, -⟩ := Prod.mk.injEq .. ▸ Option.some.injEq .. ▸ h
        subst h1
        simp [ih rest2 upd heq]
      · simp at h

theorem updateFirstMatch_isSome (p : GoogleProfile) (t : String) :
    ∀ users : List User, (∃ u ∈ users, u.email = some p.email) →
      (updateFirstMatch p t users).isSome := by
  intro users
  induction users with
  | nil => intro h; simp at h
  | cons u rest ih =>
    intro h
    obtain ⟨v, hv, hve⟩ := h
    unfold updateFirstMatch
    split
    · simp
    · rename_i hne
      have hvr : v ∈ rest := by
        rcases List.mem_cons.mp hv with rfl | hr
        · exact absurd (by simp [hve]) hne
        · exact hr
      have := ih ⟨v, hvr, hve⟩
      cases hm : updateFirstMatch p t rest with
      | none => rw [hm] at this; simp at this
      | some r => simp [hm]

/-- C3 (counterexample): with a store that is case-insensitively unique on
email, an assertion whose email differs from the stored one only in letter
case creates a second record — the lookup is case-sensitive, and two records
now share the same lowercased email. -/
theorem reconcile_case_insensitive_dup :
    (addOrUpdateGoogleUser
        [⟨"1", "Ann", some "ann@x.com", some "h", none, none, "t0", none⟩]
        ⟨"g1", "Ann G", "Ann@x.com", "u"⟩ "2" "t2" true).2.length = 2 ∧
    ((addOrUpdateGoogleUser
        [⟨"1", "Ann", some "ann@x.com", some "h", none, none, "t0", none⟩]
        ⟨"g1", "Ann G", "Ann@x.com", "u"⟩ "2" "t2" true).2.map
      (fun u => u.email.map jsToLower)) = [some "ann@x.com", some "ann@x.com"] := by
  decide

/-- C3 (amended): the reconcile lookup is a case-sensitive exact email
match; for an assertion whose email exactly equals some stored record's
email, reconcile updates in place and creates no new record. -/
theorem reconcile_exact_match_no_new_record (users : List User) (p : GoogleProfile)
    (nowId nowISO : String) (h : ∃ u ∈ users, u.email = some p.email) :
    ((addOrUpdateGoogleUser users p nowId nowISO true).2).length = users.length := by
  unfold addOrUpdateGoogleUser
  have hs := updateFirstMatch_isSome p nowISO users h
  cases hm : updateFirstMatch p nowISO users with
  | none => rw [hm] at hs; simp at hs
  | some r =>
    obtain ⟨l2, w⟩ := r
    simp only [hm, if_true]
    exact updateFirstMatch_length p nowISO users l2 w hm

/-- C3 (witness): an exactly-matching assertion leaves the store at one
record. -/
theorem reconcile_exact_match_no_new_record_witness :
    ((addOrUpdateGoogleUser
        [⟨"1", "Ann", some "ann@x.com", some "h", none, none, "t0", none⟩]
        ⟨"g1", "Ann G", "ann@x.com", "u"⟩ "2" "t2" true).2).length = 1 :=
  reconcile_exact_match_no_new_record _ _ _ _
    ⟨⟨"1", "Ann", some "ann@x.com", some "h", none, none, "t0", none⟩, by simp, rfl⟩

end SplitBill

namespace SplitBill

theorem updateFirstMatch_none_of_filter_nil (p : GoogleProfile) (t : String) :
    ∀ users : List User, filterEmail users p.email = [] →
      updateFirstMatch p t users = none := by
  intro users
  induction users with
  | nil => intro _; rfl
  | cons u rest ih =>
    intro h
    rw [filterEmail, List.filter_cons] at h
    by_cases hu : (u.email == some p.email) = true
    · simp [hu] at h
    · rw [if_neg (by simp [hu])] at h
      unfold updateFirstMatch
      rw [if_neg hu, ih h]

theorem updateFirstMatch_singleton (p : GoogleProfile) (t : String) :
    ∀ (users : List User) (m : User), filterEmail users p.email = [m] →
      ∃ l2, updateFirstMatch p t users = some (l2, applyGoogleUpdate m p t) ∧
        filterEmail l2 p.email = [applyGoogleUpdate m p t] := by
  intro users
  induction users with
  | nil => intro m h; simp [filterEmail] at h
  | cons u rest ih =>
    intro m h
    rw [filterEmail, List.filter_cons] at h
    by_cases hu : (u.email == some p.email) = true
    · rw [if_pos hu] at h
      have h1 : u = m ∧ List.filter (fun v => v.email == some p.email) rest = [] := by
        constructor
        · exact (List.cons.injEq .. ▸ h).1
        · exact (List.cons.injEq .. ▸ h).2
      obtain ⟨rfl, h2⟩ := h1
      refine ⟨applyGoogleUpdate u p t :: rest, ?_, ?_⟩
      · unfold updateFirstMatch
        rw [if_pos hu]
      · rw [filterEmail, List.filter_cons, if_pos (by simpa [applyGoogleUpdate_email] using hu)]
        rw [show List.filter (fun v => v.email == some p.email) rest = [] from h2]
    · rw [if_neg (by simp [hu])] at h
      obtain ⟨l2, hl2, hf⟩ := ih m h
      refine ⟨u :: l2, ?_, ?_⟩
      · unfold updateFirstMatch
        rw [if_neg hu, hl2]
      · rw [filterEmail, List.filter_cons, if_neg (by simp [hu])]
        exact hf

theorem addOrUpdate_of_filter_nil (s : List User) (p : GoogleProfile) (nid t : String)
    (h : filterEmail s p.email = []) :
    (addOrUpdateGoogleUser s p nid t true).1 = newGoogleUser p nid t ∧
    (addOrUpdateGoogleUser s p nid t true).2 = s ++ [newGoogleUser p nid t] := by
  unfold addOrUpdateGoogleUser
  rw [updateFirstMatch_none_of_filter_nil p t s h]
  simp

theorem addOrUpdate_of_filter_singleton (s : List User) (p : GoogleProfile) (m : User)
    (nid t : String) (h : filterEmail s p.email = [m]) :
    (addOrUpdateGoogleUser s p nid t true).1 = applyGoogleUpdate m p t ∧
    filterEmail (addOrUpdateGoogleUser s p nid t true).2 p.email =
      [applyGoogleUpdate m p t] := by
  obtain ⟨l2, hl2, hf⟩ := updateFirstMatch_singleton p t s m h
  unfold addOrUpdateGoogleUser
  rw [hl2]
  exact ⟨rfl, hf⟩

theorem filterEmail_append_new (s : List User) (p : GoogleProfile) (nid t : String)
    (h : filterEmail s p.email = []) :
    filterEmail (s ++ [newGoogleUser p nid t]) p.email = [newGoogleUser p nid t] := by
  rw [filterEmail, List.filter_append]
  rw [show List.filter (fun u => u.email == some p.email) s = [] from h]
  simp [newGoogleUser]

/-- C4: reconciling the same assertion twice in sequence against a store
that holds at most one record for that email (the store's uniqueness
invariant) leaves exactly one record for that email, with `lastLogin`
advanced to the second call's timestamp and `id` unchanged from the first
call's result. -/
theorem reconcile_idempotent (users : List User) (p : GoogleProfile)
    (id1 t1 id2 t2 : String) (huniq : countEmail users p.email ≤ 1) :
    countEmail ((addOrUpdateGoogleUser
        ((addOrUpdateGoogleUser users p id1 t1 true).2) p id2 t2 true).2) p.email = 1 ∧
    ((addOrUpdateGoogleUser
        ((addOrUpdateGoogleUser users p id1 t1 true).2) p id2 t2 true).1).lastLogin =
      some t2 ∧
    ((addOrUpdateGoogleUser
        ((addOrUpdateGoogleUser users p id1 t1 true).2) p id2 t2 true).1).id =
      ((addOrUpdateGoogleUser users p id1 t1 true).1).id := by
  cases hfe : filterEmail users p.email with
  | nil =>
    obtain ⟨h1, h2⟩ := addOrUpdate_of_filter_nil users p id1 t1 hfe
    have hf1 : filterEmail (addOrUpdateGoogleUser users p id1 t1 true).2 p.email =
        [newGoogleUser p id1 t1] := by
      rw [h2]; exact filterEmail_append_new users p id1 t1 hfe
    obtain ⟨g1, g2⟩ := addOrUpdate_of_filter_singleton _ p (newGoogleUser p id1 t1) id2 t2 hf1
    refine ⟨?_, ?_, ?_⟩
    · rw [countEmail, g2]; rfl
    · rw [g1]; rfl
    · rw [g1, h1]; rfl
  | cons m rest =>
    cases rest with
    | nil =>
      obtain ⟨h1, h2f⟩ := addOrUpdate_of_filter_singleton users p m id1 t1 hfe
      obtain ⟨g1, g2⟩ := addOrUpdate_of_filter_singleton _ p (applyGoogleUpdate m p t1) id2 t2 h2f
      refine ⟨?_, ?_, ?_⟩
      · rw [countEmail, g2]; rfl
      · rw [g1]; rfl
      · rw [g1, h1]; rfl
    | cons m2 rest2 =>
      rw [countEmail, hfe] at huniq
      simp at huniq

/-- C4 (witness): a first-time assertion reconciled twice leaves one record,
lastLogin at the second timestamp, id from the first call. -/
theorem reconcile_idempotent_witness :
    countEmail ((addOrUpdateGoogleUser
        ((addOrUpdateGoogleUser [] (⟨"g1", "Ann G", "ann@x.com", "u"⟩ : GoogleProfile)
          "1" "t1" true).2)
        ⟨"g1", "Ann G", "ann@x.com", "u"⟩ "2" "t2" true).2) "ann@x.com" = 1 ∧
    ((addOrUpdateGoogleUser
        ((addOrUpdateGoogleUser [] (⟨"g1", "Ann G", "ann@x.com", "u"⟩ : GoogleProfile)
          "1" "t1" true).2)
        ⟨"g1", "Ann G", "ann@x.com", "u"⟩ "2" "t2" true).1).lastLogin = some "t2" ∧
    ((addOrUpdateGoogleUser
        ((addOrUpdateGoogleUser [] (⟨"g1", "Ann G", "ann@x.com", "u"⟩ : GoogleProfile)
          "1" "t1" true).2)
        ⟨"g1", "Ann G", "ann@x.com", "u"⟩ "2" "t2" true).1).id =
      ((addOrUpdateGoogleUser [] (⟨"g1", "Ann G", "ann@x.com", "u"⟩ : GoogleProfile)
          "1" "t1" true).1).id :=
  reconcile_idempotent [] ⟨"g1", "Ann G", "ann@x.com", "u"⟩ "1" "t1" "2" "t2" (by decide)

end SplitBill

namespace SplitBill

theorem updateFirstMatch_append (p : GoogleProfile) (t : String) :
    ∀ (pre : List User) (m : User) (post : List User),
      (∀ u ∈ pre, ¬ u.email = some p.email) → m.email = some p.email →
      updateFirstMatch p t (pre ++ m :: post) =
        some (pre ++ applyGoogleUpdate m p t :: post, applyGoogleUpdate m p t) := by
  intro pre
  induction pre with
  | nil =>
    intro m post _ hm
    simp only [List.nil_append]
    unfold updateFirstMatch
    rw [if_pos (by simp [hm])]
  | cons u rest ih =>
    intro m post hpre hm
    have hu : ¬ u.email = some p.email := hpre u (by simp)
    simp only [List.cons_append]
    unfold updateFirstMatch
    rw [if_neg (by simp [hu]), ih m post (fun v hv => hpre v (by simp [hv])) hm]

/-- C5: when the assertion's email exactly matches a stored record (the
first such record, all earlier ones not matching), reconcile replaces that
record with one whose `name`, `picture`, `googleId` and `lastLogin` come
from the assertion while `id`, `createdAt`, `email` and any stored
`password` are unchanged; every other record of the store is untouched. -/
theorem reconcile_update_frame (pre post : List User) (m : User) (p : GoogleProfile)
    (nowId nowISO : String) (hpre : ∀ u ∈ pre, ¬ u.email = some p.email)
    (hm : m.email = some p.email) :
    (addOrUpdateGoogleUser (pre ++ m :: post) p nowId nowISO true).2 =
      pre ++ applyGoogleUpdate m p nowISO :: post ∧
    (addOrUpdateGoogleUser (pre ++ m :: post) p nowId nowISO true).1 =
      applyGoogleUpdate m p nowISO ∧
    (applyGoogleUpdate m p nowISO).id = m.id ∧
    (applyGoogleUpdate m p nowISO).createdAt = m.createdAt ∧
    (applyGoogleUpdate m p nowISO).password = m.password ∧
    (applyGoogleUpdate m p nowISO).email = m.email ∧
    (applyGoogleUpdate m p nowISO).name = p.name ∧
    (applyGoogleUpdate m p nowISO).picture = some p.picture ∧
    (applyGoogleUpdate m p nowISO).googleId = some p.googleId ∧
    (applyGoogleUpdate m p nowISO).lastLogin = some nowISO := by
  unfold addOrUpdateGoogleUser
  rw [updateFirstMatch_append p nowISO pre m post hpre hm]
  exact ⟨rfl, rfl, rfl, rfl, rfl, rfl, rfl, rfl, rfl, rfl⟩

/-- C5 (witness): the spec's scenario — a locally registered record for
ann@x.com reconciled with the Google assertion keeps its id, createdAt and
password hash, and takes the asserted name, picture and googleId. -/
theorem reconcile_update_frame_witness :
    (addOrUpdateGoogleUser
        [⟨"10", "Ann", some "ann@x.com", some (bcryptHash "longenough1"), none, none, "t0", none⟩]
        ⟨"g1", "Ann G", "ann@x.com", "u"⟩ "11" "t2" true).2 =
      [applyGoogleUpdate
        ⟨"10", "Ann", some "ann@x.com", some (bcryptHash "longenough1"), none, none, "t0", none⟩
        ⟨"g1", "Ann G", "ann@x.com", "u"⟩ "t2"] ∧
    (addOrUpdateGoogleUser
        [⟨"10", "Ann", some "ann@x.com", some (bcryptHash "longenough1"), none, none, "t0", none⟩]
        ⟨"g1", "Ann G", "ann@x.com", "u"⟩ "11" "t2" true).1 =
      applyGoogleUpdate
        ⟨"10", "Ann", some "ann@x.com", some (bcryptHash "longenough1"), none, none, "t0", none⟩
        ⟨"g1", "Ann G", "ann@x.com", "u"⟩ "t2" ∧
    (applyGoogleUpdate
        ⟨"10", "Ann", some "ann@x.com", some (bcryptHash "longenough1"), none, none, "t0", none⟩
        ⟨"g1", "Ann G", "ann@x.com", "u"⟩ "t2").id = "10" ∧
    (applyGoogleUpdate
        ⟨"10", "Ann", some "ann@x.com", some (bcryptHash "longenough1"), none, none, "t0", none⟩
        ⟨"g1", "Ann G", "ann@x.com", "u"⟩ "t2").createdAt = "t0" ∧
    (applyGoogleUpdate
        ⟨"10", "Ann", some "ann@x.com", some (bcryptHash "longenough1"), none, none, "t0", none⟩
        ⟨"g1", "Ann G", "ann@x.com", "u"⟩ "t2").password = some (bcryptHash "longenough1") ∧
    (applyGoogleUpdate
        ⟨"10", "Ann", some "ann@x.com", some (bcryptHash "longenough1"), none, none, "t0", none⟩
        ⟨"g1", "Ann G", "ann@x.com", "u"⟩ "t2").email = some "ann@x.com" ∧
    (applyGoogleUpdate
        ⟨"10", "Ann", some "ann@x.com", some (bcryptHash "longenough1"), none, none, "t0", none⟩
        ⟨"g1", "Ann G", "ann@x.com", "u"⟩ "t2").name = "Ann G" ∧
    (applyGoogleUpdate
        ⟨"10", "Ann", some "ann@x.com", some (bcryptHash "longenough1"), none, none, "t0", none⟩
        ⟨"g1", "Ann G", "ann@x.com", "u"⟩ "t2").picture = some "u" ∧
    (applyGoogleUpdate
        ⟨"10", "Ann", some "ann@x.com", some (bcryptHash "longenough1"), none, none, "t0", none⟩
        ⟨"g1", "Ann G", "ann@x.com", "u"⟩ "t2").googleId = some "g1" ∧
    (applyGoogleUpdate
        ⟨"10", "Ann", some "ann@x.com", some (bcryptHash "longenough1"), none, none, "t0", none⟩
        ⟨"g1", "Ann G", "ann@x.com", "u"⟩ "t2").lastLogin = some "t2" :=
  reconcile_update_frame [] []
    ⟨"10", "Ann", some "ann@x.com", some (bcryptHash "longenough1"), none, none, "t0", none⟩
    ⟨"g1", "Ann G", "ann@x.com", "u"⟩ "11" "t2" (by simp) rfl

end SplitBill

namespace SplitBill

/-- C6: evaluated at a concrete valid registration, the simple server
variant stores the plaintext itself as the record's credential (its own
comment says to hash it), while the OAuth-variant signup stores the bcrypt
digest, which differs from the plaintext. -/
theorem simple_signup_stores_plaintext :
    ((signupSimple [] "bob" "bob@x.com" "password123" "1" "t0").2.map
      (fun u => u.password)) = [some "password123"] ∧
    ((signup [] ⟨"Bob", "bob@x.com", "password123"⟩ "1" "t0" true).2.map
      (fun u => u.password)) = [some (bcryptHash "password123")] ∧
    bcryptHash "password123" ≠ "password123" := by
  decide

theorem checkDupEmail_ok_true (e : String) :
    ∀ users : List User, (∀ u ∈ users, u.email.isSome) →
      (∃ u ∈ users, ∃ eu, u.email = some eu ∧ jsToLower eu = jsToLower e) →
      checkDupEmail users e = .ok true := by
  intro users
  induction users with
  | nil => intro _ h; simp at h
  | cons u rest ih =>
    intro hall hex
    cases hu : u.email with
    | none => exact absurd (hall u (by simp)) (by simp [hu])
    | some eu =>
      by_cases hcmp : jsToLower eu = jsToLower e
      · simp [checkDupEmail, hu, hcmp]
      · simp only [checkDupEmail, hu]
        rw [if_neg (by simp [hcmp])]
        apply ih (fun v hv => hall v (by simp [hv]))
        obtain ⟨v, hv, ev, hev, hevl⟩ := hex
        rcases List.mem_cons.mp hv with rfl | hvr
        · rw [hu] at hev
          cases hev
          exact absurd hevl hcmp
        · exact ⟨v, hvr, ev, hev, hevl⟩

/-- C7: a registration whose other fields are valid but whose email is
already stored (case-insensitively), against a store in which every record
has an email key, reports the conflict error and leaves the persisted store
unchanged. -/
theorem signup_duplicate_email_conflict (users : List User) (req : SignupReq)
    (nowId nowISO : String) (saveOk : Bool)
    (hn : req.name ≠ "") (he : req.email ≠ "") (hp : 6 ≤ req.password.length)
    (hall : ∀ u ∈ users, u.email.isSome)
    (hdup : ∃ u ∈ users, ∃ eu, u.email = some eu ∧ jsToLower eu = jsToLower req.email) :
    signup users req nowId nowISO saveOk =
      (.badRequest "Email already registered", users) := by
  have hpne : req.password ≠ "" := by
    intro h0
    rw [h0] at hp
    simp at hp
  unfold signup
  rw [if_neg (by simp [hn, he, hpne]), if_neg (by omega),
    checkDupEmail_ok_true req.email users hall hdup]

/-- C7 (witness): registering ann@x.com when Ann@X.com is stored is a
conflict and the store is unchanged. -/
theorem signup_duplicate_email_conflict_witness :
    signup [⟨"1", "Ann", some "Ann@X.com", some "h", none, none, "t0", none⟩]
      ⟨"Bob", "ann@x.com", "abcdef"⟩ "2" "t1" true =
      (.badRequest "Email already registered",
        [⟨"1", "Ann", some "Ann@X.com", some "h", none, none, "t0", none⟩]) :=
  signup_duplicate_email_conflict _ _ _ _ _ (by decide) (by decide) (by decide)
    (by decide)
    ⟨⟨"1", "Ann", some "Ann@X.com", some "h", none, none, "t0", none⟩, by simp,
      "Ann@X.com", rfl, by decide⟩

/-- C8 (counterexample): when the save fails, delegated-identity
reconciliation still returns the new record as its result — the caller sees
the reconciled user (and a session is established from it) even though the
persisted store is unchanged and holds no such record. -/
theorem reconcile_ignores_save_failure :
    (addOrUpdateGoogleUser [] ⟨"g1", "New", "new@x.com", "u"⟩ "9" "t9" false).1 =
      newGoogleUser ⟨"g1", "New", "new@x.com", "u"⟩ "9" "t9" ∧
    (addOrUpdateGoogleUser [] ⟨"g1", "New", "new@x.com", "u"⟩ "9" "t9" false).2 = [] := by
  decide

/-- C8 (amended): registration checks the save result — on failure it
reports the generic server failure and no record is persisted; delegated
reconciliation leaves the persisted store unchanged on save failure but
ignores the failure, returning the same record it would return on success. -/
theorem save_failure_handling (users : List User) (req : SignupReq)
    (nowId nowISO : String)
    (hn : req.name ≠ "") (he : req.email ≠ "") (hp : 6 ≤ req.password.length)
    (hdup : checkDupEmail users req.email = .ok false) :
    signup users req nowId nowISO false =
      (.serverError "Failed to save user data", users) ∧
    ∀ (p : GoogleProfile) (nid t : String),
      (addOrUpdateGoogleUser users p nid t false).2 = users ∧
      (addOrUpdateGoogleUser users p nid t false).1 =
        (addOrUpdateGoogleUser users p nid t true).1 := by
  constructor
  · have hpne : req.password ≠ "" := by
      intro h0
      rw [h0] at hp
      simp at hp
    unfold signup
    rw [if_neg (by simp [hn, he, hpne]), if_neg (by omega), hdup]
    rfl
  · intro p nid t
    unfold addOrUpdateGoogleUser
    cases hm : updateFirstMatch p t users with
    | none => exact ⟨rfl, rfl⟩
    | some r =>
      obtain ⟨l2, w⟩ := r
      exact ⟨rfl, rfl⟩

/-- C8 (witness): a concrete registration with a failing save reports the
generic failure and leaves the store empty. -/
theorem save_failure_handling_witness :
    signup [] ⟨"Bob", "bob@x.com", "abcdef"⟩ "1" "t0" false =
      (.serverError "Failed to save user data", []) :=
  (save_failure_handling [] ⟨"Bob", "bob@x.com", "abcdef"⟩ "1" "t0"
    (by decide) (by decide) (by decide) rfl).1

/-- C9 (counterexample): the 7-character password "abcdefg" is rejected by
the client's on-input validator (minimum 8) yet passes the client's
submit-time pre-check and is accepted by the server (minimum 6), so the two
checks do not accept the same set of password lengths. -/
theorem validatePassword_rejects_server_accepted_password :
    validatePassword "abcdefg" = false ∧
    signUpSubmitPasswordOk "abcdefg" = true ∧
    (signup [] ⟨"Bob", "bob@x.com", "abcdefg"⟩ "1" "t0" true).1 =
      .created "User created successfully"
        (sanitizeUser (mkSignupUser ⟨"Bob", "bob@x.com", "abcdefg"⟩ "1" "t0")) := by
  decide

/-- C9 (amended): the client's submit-time pre-check and the server's
authoritative check agree exactly (both minimum length 6, on a fresh store
with the other fields valid); the on-input validator's minimum of 8 is the
odd one out, per the counterexample. -/
theorem submit_precheck_matches_server_minimum (pw name email nowId nowISO : String)
    (hn : name ≠ "") (he : email ≠ "") :
    signUpSubmitPasswordOk pw = true ↔
      signup [] ⟨name, email, pw⟩ nowId nowISO true =
        (.created "User created successfully"
            (sanitizeUser (mkSignupUser ⟨name, email, pw⟩ nowId nowISO)),
          [mkSignupUser ⟨name, email, pw⟩ nowId nowISO]) := by
  constructor
  · intro h
    have h1 : pw ≠ "" ∧ ¬ pw.length < 6 := by
      have := h
      unfold signUpSubmitPasswordOk at this
      constructor
      · intro h0
        rw [h0] at this
        simp at this
      · intro h0
        simp [h0] at this
    unfold signup
    rw [if_neg (by simp [hn, he, h1.1]), if_neg h1.2]
    rfl
  · intro h
    unfold signup at h
    split at h
    · simp at h
    · split at h
      · simp at h
      · rename_i h0 h6
        unfold signUpSubmitPasswordOk
        have hpw : pw ≠ "" := by
          intro he0
          exact h0 (Or.inr (Or.inr he0))
        simp [hpw, h6]

/-- C9 (witness): a 6-character password passes the submit-time pre-check
and the server creates the account. -/
theorem submit_precheck_matches_server_minimum_witness :
    signup [] ⟨"Bob", "b@x.com", "abcdef"⟩ "1" "t0" true =
      (.created "User created successfully"
          (sanitizeUser (mkSignupUser ⟨"Bob", "b@x.com", "abcdef"⟩ "1" "t0")),
        [mkSignupUser ⟨"Bob", "b@x.com", "abcdef"⟩ "1" "t0"]) :=
  (submit_precheck_matches_server_minimum "abcdef" "Bob" "b@x.com" "1" "t0"
    (by decide) (by decide)).mp (by decide)

/-- C10: the sign-in lookup's guard skips records without an email key: on
any store whose email-bearing records all fail to match the identifier
(records without an email imposing no condition), sign-in returns the
generic invalid-credentials response rather than failing. -/
theorem signin_skips_emailless_records (users : List User) (email password nowISO : String)
    (he : email ≠ "") (hp : password ≠ "")
    (h : ∀ u ∈ users, ∀ eu, u.email = some eu → jsToLower eu ≠ jsToLower email) :
    signin users email password nowISO = .unauthorized "Invalid credentials" := by
  have hl : signinLookup users email = none := by
    unfold signinLookup
    rw [List.find?_eq_none]
    intro u hu
    cases hue : u.email with
    | none => simp [hue]
    | some eu => simp [hue, h u hu eu hue]
  unfold signin
  rw [if_neg (by simp [he, hp]), hl]

/-- C10 (witness): a store holding only a record with no email field yields
the generic invalid-credentials response for any identifier. -/
theorem signin_skips_emailless_records_witness :
    signin [⟨"7", "Ghost", none, some "h", none, none, "t0", none⟩]
      "ghost@x.com" "pw" "t1" = .unauthorized "Invalid credentials" :=
  signin_skips_emailless_records
    [⟨"7", "Ghost", none, some "h", none, none, "t0", none⟩] "ghost@x.com" "pw" "t1"
    (by decide) (by decide)
    (by
      intro u hu eu heq
      rw [List.mem_singleton] at hu
      subst hu
      simp at heq)

end SplitBill
